import Mathlib

/-!
Shallow embedding of `src/main.py` of misconfig-ConfigVersionCompatibilityChecker.

The program has three operations: `load_config` (lines 66-107), the version
extraction inlined in `main` (lines 159-163), and `is_version_compatible`
(lines 109-144), orchestrated by `main` (lines 146-176).  Python exceptions
become `Except` values; the error constructor names follow the spec's error
taxonomy, with comments mapping each to the Python exception class it models.
-/

namespace MisconfigChecker

/-- A parsed configuration value, as produced by `json.load` / `yaml.safe_load`:
`None`, booleans, integers, strings, sequences and mappings.  (Floats and
other YAML scalar types are omitted; no claim depends on them.)  Mapping keys
are taken to be distinct, as both parsers produce dictionaries. -/
inductive PyValue where
  | none : PyValue
  | bool : Bool → PyValue
  | int : Int → PyValue
  | str : String → PyValue
  | list : List PyValue → PyValue
  | dict : List (String × PyValue) → PyValue
deriving Repr

/-- Python truthiness (`bool(v)`): `None`, `False`, `0`, `""`, `[]`, `{}` are
falsy, everything else truthy.  Used by `if not config_version:` (line 161). -/
def pyTruthy : PyValue → Bool
  | .none => false
  | .bool b => b
  | .int n => n != 0
  | .str s => s != ""
  | .list l => !l.isEmpty
  | .dict d => !d.isEmpty

/-- Whether the value is a mapping (the only `PyValue` with a `.get` method). -/
def PyValue.isDict : PyValue → Bool
  | .dict _ => true
  | _ => false

/-- Python `str(v)` for the scalar values that can sit under the version key.
Only used by the spec-modelled coercing extractor, never by the code model. -/
def pyStr : PyValue → String
  | .none => "None"
  | .bool b => if b then "True" else "False"
  | .int n => toString n
  | .str s => s
  | .list _ => "[...]"
  | .dict _ => "\x7b...\x7d"

/-! ### Python `int(str)` and `str.split(".")` -/

/-- Digits of Python's `int(str)` grammar after the optional sign:
`digit (["_"] digit)*` — ASCII digits, single underscores allowed between
digits (Python also accepts certain Unicode digits, not modelled; no version
string in any claim uses them). `acc` is the value of the digits read so far. -/
def pyDigitsAux : List Char → Nat → Option Nat
  | [], acc => some acc
  | c :: rest, acc =>
    if c = '_' then
      match rest with
      | c2 :: rest2 =>
        if c2.isDigit then pyDigitsAux rest2 (acc * 10 + (c2.toNat - 48)) else Option.none
      | [] => Option.none
    else if c.isDigit then pyDigitsAux rest (acc * 10 + (c.toNat - 48))
    else Option.none

/-- A nonempty digit part: at least one digit, then `pyDigitsAux`. -/
def pyDigits : List Char → Option Nat
  | [] => Option.none
  | c :: rest => if c.isDigit then pyDigitsAux rest (c.toNat - 48) else Option.none

/-- Python `int(s)` on a component string (as characters): strip surrounding
whitespace, optional `+`/`-` sign, then a digit part.  Crucially, `int`
accepts a leading minus sign, so negative components parse successfully. -/
def pyInt? (cs : List Char) : Option Int :=
  let t := ((cs.dropWhile Char.isWhitespace).reverse.dropWhile Char.isWhitespace).reverse
  match t with
  | '+' :: rest => (pyDigits rest).map Int.ofNat
  | '-' :: rest => (pyDigits rest).map (fun n => -(Int.ofNat n))
  | _ => (pyDigits t).map Int.ofNat

/-- Python `s.split(".")`: split on every occurrence of `'.'`; the empty
string yields `[""]`, and adjacent dots yield empty components.  `acc` holds
the current component, reversed. -/
def splitDotAux : List Char → List Char → List (List Char)
  | [], acc => [acc.reverse]
  | c :: rest, acc =>
    if c = '.' then acc.reverse :: splitDotAux rest []
    else splitDotAux rest (c :: acc)

/-- `s.split(".")` on a string. -/
def splitDot (s : String) : List (List Char) :=
  splitDotAux s.toList []

/-- `config_major, config_minor, config_patch = map(int, s.split("."))`
(lines 125-126): exactly three components, each accepted by `int`; any other
component count or a component rejected by `int` raises `ValueError`
(modelled as `Option.none`). -/
def parseVersion3 (s : String) : Option (Int × Int × Int) :=
  match splitDot s with
  | [a, b, c] =>
    match pyInt? a, pyInt? b, pyInt? c with
    | some x, some y, some z => some (x, y, z)
    | _, _, _ => Option.none
  | _ => Option.none

/-! ### The comparator `is_version_compatible` (lines 109-144) -/

/-- Which rule an incompatibility violated (the reason tag of the spec's
`VersionIncompatibilityError`; in the code, the "(Major version mismatch)" /
"(Minor version mismatch)" suffix of the exception message). -/
inductive VersionTag where
  | major
  | minor
deriving DecidableEq, Repr

/-- Failures of `is_version_compatible`: `invalidFormat` models the
`ValueError` re-raised at lines 139-141 (the spec's
`InvalidVersionFormatError`); `incompatible` models
`VersionIncompatibilityError`, which carries both full version strings in
its message (lines 129-135). -/
inductive CheckError where
  | invalidFormat : CheckError
  | incompatible : VersionTag → String → String → CheckError
deriving DecidableEq, Repr

/-- `is_version_compatible(config_version, app_version)` (lines 109-144):
parse both strings as three dot-separated `int`s; raise on
`config_major > app_major` (major mismatch), else on equal majors with
`config_minor > app_minor` (minor mismatch); otherwise return `True`.
The patch components are bound but never inspected. -/
def is_version_compatible (config_version app_version : String) :
    Except CheckError Bool :=
  match parseVersion3 config_version, parseVersion3 app_version with
  | some (cMaj, cMin, _), some (aMaj, aMin, _) =>
    if cMaj > aMaj then
      .error (.incompatible .major config_version app_version)
    else if cMaj = aMaj ∧ cMin > aMin then
      .error (.incompatible .minor config_version app_version)
    else
      .ok true
  | _, _ => .error .invalidFormat

/-- The observable classification of a comparator result: compatible, which
mismatch, or a format error — the "outcome" ignoring the message strings. -/
inductive CheckOutcome where
  | compatible
  | majorMismatch
  | minorMismatch
  | formatError
deriving DecidableEq, Repr

/-- Classify a comparator result. -/
def checkOutcome : Except CheckError Bool → CheckOutcome
  | .ok _ => .compatible
  | .error .invalidFormat => .formatError
  | .error (.incompatible .major _ _) => .majorMismatch
  | .error (.incompatible .minor _ _) => .minorMismatch

/-! ### The loader `load_config` (lines 66-107) -/

/-- Failures of `load_config`: `fileNotFound` models `FileNotFoundError`
raised by `open` (line 84), `parseError` models `json.JSONDecodeError` /
`yaml.YAMLError` re-raised at lines 90/96, and `invalidArgument` models the
`ValueError("Invalid configuration type. …")` raised at line 98 (the spec's
`InvalidArgumentError`). -/
inductive LoadError where
  | fileNotFound : String → LoadError
  | parseError : LoadError
  | invalidArgument : LoadError
deriving Repr

/-- `load_config(config_file, config_type)` (lines 83-107).  The filesystem
is a map from paths to raw file contents (`Option.none` = the path does not
resolve), and the JSON/YAML parsers are parameters, since no claim depends
on the concrete grammar they accept.  Faithful to the code's order:
`open(config_file)` runs FIRST (line 84); only with the file open is the
format tag dispatched (lines 85-98), so an unsupported tag on a missing path
yields `fileNotFound`, not `invalidArgument`. -/
def load_config (fs : String → Option String)
    (parseJson parseYaml : String → Except Unit PyValue)
    (config_file config_type : String) : Except LoadError PyValue :=
  match fs config_file with
  | Option.none => .error (.fileNotFound config_file)
  | some content =>
    if config_type = "json" then
      match parseJson content with
      | .ok v => .ok v
      | .error _ => .error .parseError
    else if config_type = "yaml" then
      match parseYaml content with
      | .ok v => .ok v
      | .error _ => .error .parseError
    else .error .invalidArgument

/-! ### The extractor (inlined in `main`, lines 159-163) -/

/-- Failures of the extraction step: `attributeError` models the
`AttributeError` raised by `config_data.get(...)` when the loaded document is
not a mapping (line 159); `missingVersion` models the "Version key not
found" fatal path (lines 161-163, the spec's `MissingVersionError`), naming
the key. -/
inductive ExtractError where
  | attributeError : ExtractError
  | missingVersion : String → ExtractError
deriving Repr

/-- The extraction step of `main` (lines 159-163):
`config_version = config_data.get(version_key)` followed by
`if not config_version: … exit(1)`.  On a mapping, `.get` returns the stored
value or `None`; the guard is a truthiness test, so an absent key and a
present-but-falsy value take the same fatal path.  On any non-mapping
document, `.get` itself raises `AttributeError`.  The value is returned
as-is — no coercion of any kind is applied to it. -/
def extractVersion (doc : PyValue) (key : String) : Except ExtractError PyValue :=
  match doc with
  | .dict entries =>
    let v := ((entries.lookup key).getD .none)
    if pyTruthy v then .ok v else .error (.missingVersion key)
  | _ => .error .attributeError

/-- Modelled from the spec: the Version Extractor contract of section 4.2,
which — unlike the code — "coerces to its string representation and returns
it" when the value is present and truthy.  Used only to compare the spec's
words against `extractVersion`. -/
def extractVersionSpec (doc : PyValue) (key : String) :
    Except ExtractError String :=
  match doc with
  | .dict entries =>
    let v := ((entries.lookup key).getD .none)
    if pyTruthy v then .ok (pyStr v) else .error (.missingVersion key)
  | _ => .error .attributeError

/-! ### Orchestration: `main` (lines 146-176) -/

/-- The spec's error taxonomy (section 7), as observed at the end of a run:
which failure path `main` took, if any.  In the code all of these are caught
(lines 168-176) or raised via `sys.exit(1)` (line 163) and map to exit
status 1; `unexpected` is the catch-all `except Exception` handler
(lines 174-176), which is where `AttributeError` from the extraction step
and the non-string comparator input land. -/
inductive FailureKind where
  | notFound
  | parseFailure
  | invalidArgument
  | missingVersion
  | invalidVersionFormat
  | incompatibility
  | unexpected
deriving DecidableEq, Repr

/-- The observable result of a run: process exit status, the lines printed
to standard output (logging goes to standard error, not modelled), and which
failure path was taken, if any. -/
structure RunResult where
  exitCode : Nat
  stdout : List String
  failure : Option FailureKind
deriving Repr

/-- The success line printed at line 166. -/
def successLine : String := "Configuration version is compatible."

/-- The compatibility step of `main` (line 165): the extracted value is
passed to `is_version_compatible` unconverted; a non-string value raises
`AttributeError` at `config_version.split(".")` (line 125), caught by the
top-level `except Exception` handler.  A string value runs the comparator,
whose `ValueError` / `VersionIncompatibilityError` are caught at
lines 170-173. -/
def checkStep (v : PyValue) (app_version : String) : Except FailureKind Bool :=
  match v with
  | .str s =>
    match is_version_compatible s app_version with
    | .ok b => .ok b
    | .error .invalidFormat => .error .invalidVersionFormat
    | .error (.incompatible _ _ _) => .error .incompatibility
  | _ => .error .unexpected

/-- Map a loader failure to the failure path `main` takes for it.  (In the
code, `FileNotFoundError` is caught at line 168, the `ValueError` from an
invalid type at line 170, `JSONDecodeError` — a `ValueError` subclass — at
line 170 and `YAMLError` at line 174; all exit 1.) -/
def loadFailure : LoadError → FailureKind
  | .fileNotFound _ => .notFound
  | .parseError => .parseFailure
  | .invalidArgument => .invalidArgument

/-- `main` (lines 157-176) after argument parsing: load the document,
extract the version value, check compatibility, and print the success line;
every failure exits with status 1 and prints nothing to standard output,
and only full success exits with status 0. -/
def mainModel (fs : String → Option String)
    (parseJson parseYaml : String → Except Unit PyValue)
    (config_file app_version version_key config_type : String) : RunResult :=
  match load_config fs parseJson parseYaml config_file config_type with
  | .error e => ⟨1, [], some (loadFailure e)⟩
  | .ok config_data =>
    match extractVersion config_data version_key with
    | .error .attributeError => ⟨1, [], some .unexpected⟩
    | .error (.missingVersion _) => ⟨1, [], some .missingVersion⟩
    | .ok config_version =>
      match checkStep config_version app_version with
      | .ok _ => ⟨0, [successLine], Option.none⟩
      | .error k => ⟨1, [], some k⟩

/-! ### Concrete fixtures used to instantiate theorems with hypotheses -/

/-- Fixture: a filesystem on which every path resolves to content `c`. -/
def fsWith (c : String) : String → Option String := fun _ => some c

/-- Fixture: a filesystem on which no path resolves. -/
def fsEmpty : String → Option String := fun _ => Option.none

/-- Fixture: a parser that succeeds with the document `v` on any content. -/
def parserConst (v : PyValue) : String → Except Unit PyValue := fun _ => .ok v

/-- Fixture: a parser that rejects any content. -/
def parserReject : String → Except Unit PyValue := fun _ => .error ()

/-! ## Theorems -/

/-- Helper: once both version strings parse, `is_version_compatible` is the
two-step major/minor rule on the parsed triples. -/
theorem is_version_compatible_parsed (c a : String)
    (cMaj cMin cPat aMaj aMin aPat : Int)
    (hc : parseVersion3 c = some (cMaj, cMin, cPat))
    (ha : parseVersion3 a = some (aMaj, aMin, aPat)) :
    is_version_compatible c a =
      if cMaj > aMaj then .error (.incompatible .major c a)
      else if cMaj = aMaj ∧ cMin > aMin then .error (.incompatible .minor c a)
      else .ok true := by
  unfold is_version_compatible
  rw [hc, ha]

/-- C1: for well-formed three-part integer version strings, the check fails
with a major-mismatch incompatibility (carrying both full strings) exactly
when `config.major > app.major`, fails with a minor-mismatch incompatibility
exactly when the majors agree and `config.minor > app.minor`, and otherwise
returns `true`; the patch components `cPat`, `aPat` do not appear in any of
the three conditions. -/
theorem c1_compatibility_rule (c a : String)
    (cMaj cMin cPat aMaj aMin aPat : Int)
    (hc : parseVersion3 c = some (cMaj, cMin, cPat))
    (ha : parseVersion3 a = some (aMaj, aMin, aPat)) :
    (is_version_compatible c a = .error (.incompatible .major c a) ↔ cMaj > aMaj) ∧
    (is_version_compatible c a = .error (.incompatible .minor c a) ↔
      (cMaj = aMaj ∧ cMin > aMin)) ∧
    (is_version_compatible c a = .ok true ↔
      (cMaj < aMaj ∨ (cMaj = aMaj ∧ cMin ≤ aMin))) := by
  rw [is_version_compatible_parsed c a cMaj cMin cPat aMaj aMin aPat hc ha]
  split_ifs with h1 h2
  · exact ⟨iff_of_true rfl h1, iff_of_false (by simp) (by omega),
      iff_of_false (by simp) (by omega)⟩
  · exact ⟨iff_of_false (by simp) (by omega), iff_of_true rfl h2,
      iff_of_false (by simp) (by omega)⟩
  · exact ⟨iff_of_false (by simp) (by omega), iff_of_false (by simp) (by omega),
      iff_of_true rfl (by omega)⟩

/-- Witness for C1 at `check("2.0.0", "1.9.9")`: a major mismatch carrying
both full version strings, as in the spec's test vector. -/
theorem c1_compatibility_rule_witness :
    is_version_compatible ("2.0.0") ("1.9.9") =
      .error (.incompatible .major ("2.0.0") ("1.9.9")) :=
  (c1_compatibility_rule ("2.0.0") ("1.9.9") 2 0 0 1 9 9 rfl rfl).1.mpr
    (by decide)

/-- Helper: a version string parses exactly when splitting on `'.'` yields
exactly three components and Python's `int` accepts each of them. -/
theorem parseVersion3_isSome_iff (s : String) :
    (parseVersion3 s).isSome = true ↔
      ((splitDot s).length = 3 ∧ ∀ t ∈ splitDot s, (pyInt? t).isSome = true) := by
  unfold parseVersion3
  split
  next a b c heq =>
    rw [heq]
    split
    next x y z hpa hpb hpc =>
      simp [hpa, hpb, hpc]
    next hno =>
      simp only [Option.isSome_none, Bool.false_eq_true, false_iff, not_and]
      intro _ hall
      cases hpa : pyInt? a with
      | none => simpa [hpa] using hall a (by simp)
      | some x =>
        cases hpb : pyInt? b with
        | none => simpa [hpb] using hall b (by simp)
        | some y =>
          cases hpc : pyInt? c with
          | none => simpa [hpc] using hall c (by simp)
          | some z => exact hno x y z hpa hpb hpc
  next hno =>
    simp only [Option.isSome_none, Bool.false_eq_true, false_iff, not_and]
    intro hlen hall
    obtain ⟨a, b, c, habc⟩ := List.length_eq_three.mp hlen
    exact hno a b c habc

/-- C2 counterexample: `"-1.0.0"` has a negative first component, which the
claim says must fail with `InvalidVersionFormatError`; yet Python's `int`
accepts `"-1"`, the string parses to `(-1, 0, 0)`, and the check against
`"0.0.0"` succeeds instead of failing. -/
theorem c2_counterexample :
    parseVersion3 ("-1.0.0") = some (-1, 0, 0) ∧
    is_version_compatible ("-1.0.0") ("0.0.0") = .ok true :=
  ⟨rfl, rfl⟩

/-- C2 amended: the check splits each string on `'.'`, requires exactly 3
components for both, and parses each component with Python's `int`
conversion — which accepts an optional leading sign, so a negative component
parses successfully and is compared as a negative integer rather than
rejected; a split-count mismatch or a component `int` rejects in either
input fails with `InvalidVersionFormatError`, the same error kind for either
string. -/
theorem c2_amended_format_errors (c a : String) :
    (is_version_compatible c a = .error .invalidFormat ↔
      parseVersion3 c = Option.none ∨ parseVersion3 a = Option.none) ∧
    ((parseVersion3 c).isSome = true ↔
      ((splitDot c).length = 3 ∧ ∀ t ∈ splitDot c, (pyInt? t).isSome = true)) := by
  refine ⟨?_, parseVersion3_isSome_iff c⟩
  rcases hc : parseVersion3 c with _ | ⟨⟨cMaj, cMin, cPat⟩⟩ <;>
    rcases ha : parseVersion3 a with _ | ⟨⟨aMaj, aMin, aPat⟩⟩
  · simp [is_version_compatible, hc, ha]
  · simp [is_version_compatible, hc, ha]
  · simp [is_version_compatible, hc, ha]
  · rw [is_version_compatible_parsed c a cMaj cMin cPat aMaj aMin aPat hc ha]
    split_ifs <;> simp

/-- C7: the comparator is a pure function of its two strings (in this
embedding it is a Lean function, so identical inputs give identical results
by definition), and for well-formed versions its outcome — compatible,
major mismatch, or minor mismatch — depends only on the (major, minor)
pairs: two input pairs agreeing on majors and minors but differing
arbitrarily in patch components classify identically. -/
theorem c7_outcome_patch_independent (c1 a1 c2 a2 : String)
    (cMaj cMin aMaj aMin p1 p2 q1 q2 : Int)
    (hc1 : parseVersion3 c1 = some (cMaj, cMin, p1))
    (hc2 : parseVersion3 c2 = some (cMaj, cMin, p2))
    (ha1 : parseVersion3 a1 = some (aMaj, aMin, q1))
    (ha2 : parseVersion3 a2 = some (aMaj, aMin, q2)) :
    checkOutcome (is_version_compatible c1 a1) =
      checkOutcome (is_version_compatible c2 a2) := by
  rw [is_version_compatible_parsed c1 a1 cMaj cMin p1 aMaj aMin q1 hc1 ha1,
    is_version_compatible_parsed c2 a2 cMaj cMin p2 aMaj aMin q2 hc2 ha2]
  split_ifs <;> rfl

/-- Witness for C7: `"1.2.3"` vs `"1.2.0"` and `"1.2.9"` vs `"1.2.7"` differ
only in patch components and classify identically. -/
theorem c7_outcome_patch_independent_witness :
    checkOutcome (is_version_compatible ("1.2.3") ("1.2.0")) =
      checkOutcome (is_version_compatible ("1.2.9") ("1.2.7")) :=
  c7_outcome_patch_independent ("1.2.3") ("1.2.0") ("1.2.9") ("1.2.7")
    1 2 1 2 3 9 0 7 rfl rfl rfl rfl

/-- C8: whenever the comparator returns normally its value is `True`
(line 138 is the only `return`); incompatibility is always signalled by
raising, never by returning `False`. -/
theorem c8_normal_return_is_true (c a : String) (b : Bool)
    (h : is_version_compatible c a = .ok b) : b = true := by
  rcases hc : parseVersion3 c with _ | ⟨⟨cMaj, cMin, cPat⟩⟩ <;>
    rcases ha : parseVersion3 a with _ | ⟨⟨aMaj, aMin, aPat⟩⟩
  · simp [is_version_compatible, hc, ha] at h
  · simp [is_version_compatible, hc, ha] at h
  · simp [is_version_compatible, hc, ha] at h
  · rw [is_version_compatible_parsed c a cMaj cMin cPat aMaj aMin aPat hc ha] at h
    split_ifs at h
    simp_all

/-- Witness for C8 at `check("1.0.0", "1.0.0")`. -/
theorem c8_normal_return_is_true_witness :
    is_version_compatible ("1.0.0") ("1.0.0") = .ok true ∧ true = true :=
  ⟨rfl, c8_normal_return_is_true ("1.0.0") ("1.0.0") true rfl⟩

/-- C3: on a loaded document, the extraction step fails with
`MissingVersionError` naming the key exactly when the key is absent from the
top-level mapping or its stored value is falsy (empty string, `None`, zero,
`False`, …) — the guard `if not config_version:` is a truthiness test, not a
strict-presence test — and that failure makes the run exit with status 1. -/
theorem c3_missing_version (entries : List (String × PyValue)) (key : String)
    (fs : String → Option String) (pj py : String → Except Unit PyValue)
    (config_file app_version config_type : String)
    (hload : load_config fs pj py config_file config_type = .ok (.dict entries)) :
    (extractVersion (.dict entries) key = .error (.missingVersion key) ↔
      (entries.lookup key = Option.none ∨
       ∃ v, entries.lookup key = some v ∧ pyTruthy v = false)) ∧
    (extractVersion (.dict entries) key = .error (.missingVersion key) →
      mainModel fs pj py config_file app_version key config_type =
        ⟨1, [], some .missingVersion⟩) := by
  constructor
  · cases hl : entries.lookup key with
    | none => simp [extractVersion, hl, pyTruthy]
    | some v =>
      cases htv : pyTruthy v with
      | false => simp [extractVersion, hl, htv]
      | true => simp [extractVersion, hl, htv]
  · intro hx
    simp [mainModel, hload, hx]

/-- Witness for C3: a document without the `version` key exits 1 on the
missing-version path. -/
theorem c3_missing_version_witness :
    extractVersion (.dict [(("name"), PyValue.str ("demo"))]) ("version") =
      .error (.missingVersion ("version")) ∧
    mainModel (fsWith ("")) (parserConst (.dict [(("name"), PyValue.str ("demo"))]))
      parserReject ("cfg.json") ("1.0.0") ("version") ("json") =
      ⟨1, [], some .missingVersion⟩ := by
  have h := c3_missing_version [(("name"), PyValue.str ("demo"))] ("version")
    (fsWith ("")) (parserConst (.dict [(("name"), PyValue.str ("demo"))]))
    parserReject ("cfg.json") ("1.0.0") ("json") rfl
  exact ⟨h.1.mpr (Or.inl rfl), h.2 (h.1.mpr (Or.inl rfl))⟩

/-- C4: a run exits with status 0 and prints the success line (and nothing
else) to standard output exactly when loading, extraction and the
compatibility check all succeed; every failure path exits with status 1 and
prints no success line. -/
theorem c4_exit_code_dichotomy (fs : String → Option String)
    (pj py : String → Except Unit PyValue)
    (config_file app_version version_key config_type : String) :
    ((mainModel fs pj py config_file app_version version_key config_type).exitCode = 0 ∧
     (mainModel fs pj py config_file app_version version_key config_type).stdout =
       [successLine] ∧
     (mainModel fs pj py config_file app_version version_key config_type).failure =
       Option.none ∨
     (mainModel fs pj py config_file app_version version_key config_type).exitCode = 1 ∧
     (mainModel fs pj py config_file app_version version_key config_type).stdout = [] ∧
     (mainModel fs pj py config_file app_version version_key config_type).failure ≠
       Option.none) ∧
    ((mainModel fs pj py config_file app_version version_key config_type).exitCode = 0 ↔
      ∃ doc v b, load_config fs pj py config_file config_type = .ok doc ∧
        extractVersion doc version_key = .ok v ∧
        checkStep v app_version = .ok b) := by
  cases hl : load_config fs pj py config_file config_type with
  | error e => simp [mainModel, hl]
  | ok doc =>
    cases hx : extractVersion doc version_key with
    | error err =>
      cases err with
      | attributeError => simp [mainModel, hl, hx]
      | missingVersion k => simp [mainModel, hl, hx]
    | ok v =>
      cases hk : checkStep v app_version with
      | error k => simp [mainModel, hl, hx, hk]
      | ok b =>
        refine ⟨Or.inl (by simp [mainModel, hl, hx, hk]), ?_⟩
        simp only [mainModel, hl, hx, hk]
        exact iff_of_true trivial ⟨doc, v, b, rfl, hx, hk⟩

/-- C5 counterexample: the loader opens the file before validating the
format tag, so an unsupported tag `"toml"` on a path that does not resolve
fails with `NotFoundError`, not `InvalidArgumentError` — refuting "fails
with InvalidArgumentError without touching the filesystem" as a statement
about every path. -/
theorem c5_counterexample :
    load_config fsEmpty parserReject parserReject ("config.toml") ("toml") =
      .error (.fileNotFound ("config.toml")) ∧
    load_config fsEmpty parserReject parserReject ("config.toml") ("toml") ≠
      .error .invalidArgument := by
  refine ⟨rfl, ?_⟩
  intro h
  exact LoadError.noConfusion (Except.error.inj h)

/-- C5 amended: the loader opens the file first; if the path does not
resolve it fails with `NotFoundError` even when the format tag is
unsupported, and when the open succeeds any tag other than `"json"` or
`"yaml"` fails with `InvalidArgumentError` without the content being parsed
(the parsers are never consulted). -/
theorem c5_amended_open_before_validate (fs : String → Option String)
    (pj py : String → Except Unit PyValue) (path fmt : String)
    (hj : fmt ≠ "json") (hy : fmt ≠ "yaml") :
    load_config fs pj py path fmt =
      match fs path with
      | Option.none => .error (.fileNotFound path)
      | some _ => .error .invalidArgument := by
  unfold load_config
  cases fs path with
  | none => rfl
  | some content => simp [hj, hy]

/-- Witness for the amended C5: a missing `config.toml` with tag `"toml"`
fails with `NotFoundError`. -/
theorem c5_amended_open_before_validate_witness :
    load_config fsEmpty parserReject parserReject ("cfg.toml") ("toml") =
      .error (.fileNotFound ("cfg.toml")) :=
  (c5_amended_open_before_validate fsEmpty parserReject parserReject
    ("cfg.toml") ("toml") (by decide) (by decide)).trans rfl

/-- C6 counterexample: for the document `{"version": 5}` the extraction step
returns the integer value `5` itself, not its string representation `"5"` as
the claim states (the spec-modelled coercing extractor returns `"5"`), and
the uncoerced number then makes the compatibility step take the
unexpected-error path. -/
theorem c6_counterexample :
    extractVersion (.dict [(("version"), PyValue.int 5)]) ("version") =
      .ok (.int 5) ∧
    extractVersionSpec (.dict [(("version"), PyValue.int 5)]) ("version") =
      .ok ("5") ∧
    PyValue.int 5 ≠ PyValue.str ("5") ∧
    checkStep (.int 5) ("1.0.0") = .error .unexpected := by
  refine ⟨rfl, rfl, ?_, rfl⟩
  intro h
  exact PyValue.noConfusion h

/-- C6 amended: for a present and truthy value, the extraction step returns
the stored value unchanged — no string coercion and no validation — and a
truthy non-string value (such as a number) reaches the compatibility step
unconverted, where it takes the unexpected-error (`AttributeError`) path
instead of being compared. -/
theorem c6_amended_no_coercion (entries : List (String × PyValue)) (key : String)
    (v : PyValue) (hfound : entries.lookup key = some v)
    (htruthy : pyTruthy v = true) :
    extractVersion (.dict entries) key = .ok v ∧
    ((∀ s, v ≠ .str s) →
      ∀ app_version, checkStep v app_version = .error .unexpected) := by
  constructor
  · simp [extractVersion, hfound, htruthy]
  · intro hns app_version
    cases v with
    | str s => exact absurd rfl (hns s)
    | none => rfl
    | bool b => rfl
    | int n => rfl
    | list l => rfl
    | dict d => rfl

/-- Witness for the amended C6 at the document `{"version": 5}`. -/
theorem c6_amended_no_coercion_witness :
    extractVersion (.dict [(("version"), PyValue.int 5)]) ("version") =
      .ok (.int 5) ∧
    checkStep (.int 5) ("2.3.4") = .error .unexpected := by
  have h := c6_amended_no_coercion [(("version"), PyValue.int 5)] ("version")
    (.int 5) rfl rfl
  exact ⟨h.1, h.2 (fun s hs => PyValue.noConfusion hs) ("2.3.4")⟩

/-- C9: when the loaded document is not a key-value mapping (empty YAML
parsing to `None`, a top-level array, a scalar, …), the run does not take
the missing-version or parse-error path: the `.get` call raises
`AttributeError`, which lands in the top-level unexpected-error handler, and
the process exits with status 1. -/
theorem c9_non_mapping_unexpected (fs : String → Option String)
    (pj py : String → Except Unit PyValue)
    (config_file app_version version_key config_type : String) (doc : PyValue)
    (hload : load_config fs pj py config_file config_type = .ok doc)
    (hnd : doc.isDict = false) :
    mainModel fs pj py config_file app_version version_key config_type =
      ⟨1, [], some .unexpected⟩ := by
  have hx : extractVersion doc version_key = .error .attributeError := by
    cases doc with
    | dict entries => simp [PyValue.isDict] at hnd
    | none => rfl
    | bool b => rfl
    | int n => rfl
    | str s => rfl
    | list l => rfl
  simp [mainModel, hload, hx]

/-- Witness for C9: an empty YAML file parses to `None` and the run exits 1
through the unexpected-error path. -/
theorem c9_non_mapping_unexpected_witness :
    mainModel (fsWith ("")) parserReject (parserConst .none)
      ("cfg.yaml") ("1.0.0") ("version") ("yaml") = ⟨1, [], some .unexpected⟩ :=
  c9_non_mapping_unexpected (fsWith ("")) parserReject (parserConst .none)
    ("cfg.yaml") ("1.0.0") ("version") ("yaml") .none rfl rfl

/-- C10: under the precondition that the format tag is `"json"` or `"yaml"`
(the only values argparse's `choices` admits for `--config-type`), the
loader's `InvalidArgumentError` branch is unreachable, for every filesystem
and every path. -/
theorem c10_cli_formats_never_invalid_argument (fs : String → Option String)
    (pj py : String → Except Unit PyValue) (path fmt : String)
    (h : fmt = "json" ∨ fmt = "yaml") :
    load_config fs pj py path fmt ≠ .error .invalidArgument := by
  unfold load_config
  cases hf : fs path with
  | none =>
    intro hc
    exact LoadError.noConfusion (Except.error.inj hc)
  | some content =>
    rcases h with h | h <;> subst h
    · cases hp : pj content <;> simp [hp]
    · cases hp : py content <;> simp [hp]

/-- Witness for C10 at format `"json"`. -/
theorem c10_cli_formats_never_invalid_argument_witness :
    load_config fsEmpty parserReject parserReject ("app.json") ("json") ≠
      .error .invalidArgument :=
  c10_cli_formats_never_invalid_argument fsEmpty parserReject parserReject
    ("app.json") ("json") (Or.inl rfl)

end MisconfigChecker
